import Mathlib

/-
  Verification of the `latest` channel library (src/src/value.rs, src/src/map.rs).

  Shallow embedding conventions:
  * The shared storage cell guarded by a `Mutex` is modelled as an explicit state
    (`Value.Chan` for the scalar variant holding `Option T`, `Map.Chan` for the
    keyed variant holding an association list with unique keys that stands for
    `HashMap<K, Option<V>>`).
  * Lock poisoning is a boolean component of the channel state; in Rust a
    poisoned mutex makes `lock()` return `Err(_)` and `try_lock()` return
    `Err(TryLockError::Poisoned(_))` when the lock is acquirable.
  * Lock contention is an input of the `try_` operations (`contended : Bool`):
    `try_lock()` on a lock currently held by another thread returns
    `Err(TryLockError::WouldBlock)` before poisoning can be observed, so the
    contended branch is tested first.
  * In map.rs every operation starts with `(*data_ptr).downgrade().upgrade()`;
    `Weak::upgrade` returns `Some` exactly when the strong count of the `Arc` is
    positive, so the operations take the observed strong count
    (`strong : Nat`) as an input and take the closed branch when it is zero.
    In value.rs the corresponding lines are commented out, so the scalar
    operations have no such input.
-/

namespace Latest

/-- A `Sender` handle: `id` identifies the physical handle, `ref` the shared
cell its reference-counted pointer designates.  `impl Clone for Sender`
(value.rs and map.rs) clones the pointer (`(*self.data.get()).clone()`), so a
clone carries the same `ref`. -/
structure SenderHandle where
  id : Nat
  ref : Nat
  deriving DecidableEq

namespace Value

/-- The shared cell of the scalar channel: `Arc<Mutex<Option<T>>>`.
`stored` is the guarded `Option<T>`; `poisoned` is the mutex poisoning state. -/
structure Chan (T : Type) where
  stored : Option T
  poisoned : Bool
  deriving DecidableEq

/-- `pub struct SendError<T>(T);` of value.rs. -/
structure SendError (T : Type) where
  val : T
  deriving DecidableEq

/-- `pub enum TrySendError<T>` of value.rs. -/
inductive TrySendError (T : Type) where
  | channelClosed (t : T)
  | wouldBlock (t : T)
  deriving DecidableEq

/-- `pub enum RecvError` of value.rs. -/
inductive RecvError where
  | channelClosed
  | noNewValue
  deriving DecidableEq

/-- `pub enum TryRecvError` of value.rs. -/
inductive TryRecvError where
  | channelClosed
  | wouldBlock
  | noNewValue
  deriving DecidableEq

/-- `Sender::send` of value.rs: `lock()` blocks through contention; on a
poisoned lock it returns `SendError(t)`, otherwise it overwrites the stored
option with `Some(t)`.  (The `downgrade().upgrade()` liveness check is
commented out in the source.) -/
def send {T : Type} (ch : Chan T) (t : T) : Except (SendError T) Unit × Chan T :=
  if ch.poisoned then (Except.error ⟨t⟩, ch)
  else (Except.ok (), { ch with stored := some t })

/-- `Sender::try_send` of value.rs: `try_lock()` returns `WouldBlock(t)` when
the lock is held elsewhere, `ChannelClosed(t)` when it is poisoned, and
otherwise overwrites the stored option with `Some(t)`. -/
def try_send {T : Type} (contended : Bool) (ch : Chan T) (t : T) :
    Except (TrySendError T) Unit × Chan T :=
  if contended then (Except.error (TrySendError.wouldBlock t), ch)
  else if ch.poisoned then (Except.error (TrySendError.channelClosed t), ch)
  else (Except.ok (), { ch with stored := some t })

/-- `Receiver::recv` of value.rs: on a poisoned lock returns `ChannelClosed`;
otherwise `guard.take()` removes and returns the stored value, or yields
`NoNewValue` when nothing is stored. -/
def recv {T : Type} (ch : Chan T) : Except RecvError T × Chan T :=
  if ch.poisoned then (Except.error RecvError.channelClosed, ch)
  else
    match ch.stored with
    | some t => (Except.ok t, { ch with stored := none })
    | none => (Except.error RecvError.noNewValue, ch)

/-- `Receiver::try_recv` of value.rs. -/
def try_recv {T : Type} (contended : Bool) (ch : Chan T) :
    Except TryRecvError T × Chan T :=
  if contended then (Except.error TryRecvError.wouldBlock, ch)
  else if ch.poisoned then (Except.error TryRecvError.channelClosed, ch)
  else
    match ch.stored with
    | some t => (Except.ok t, { ch with stored := none })
    | none => (Except.error TryRecvError.noNewValue, ch)

/-- The result of the (n+1)-th of a run of consecutive `recv` calls starting
from state `ch`, with no sends in between. -/
def recvN {T : Type} (ch : Chan T) : Nat → Except RecvError T × Chan T
  | 0 => recv ch
  | n + 1 => recvN (recv ch).2 n

theorem send_not_poisoned {T : Type} (ch : Chan T) (t : T)
    (hp : ch.poisoned = false) : send ch t = (Except.ok (), ⟨some t, false⟩) := by
  cases ch
  simp_all [send]

theorem recvN_empty {T : Type} (n : Nat) :
    recvN (⟨none, false⟩ : Chan T) n =
      (Except.error RecvError.noNewValue, ⟨none, false⟩) := by
  induction n with
  | zero => simp [recvN, recv]
  | succ n ih => simp [recvN, recv]; exact ih

/-- A configuration of handles around one scalar channel, tracking handle
liveness.  value.rs performs no liveness check at all (its
`downgrade().upgrade()` lines are commented out) and dropping a handle only
decrements an `Arc` count, so the operations below act on `chan` alone and
never consult `senders` or `receiverLive`. -/
structure HandleWorld (T : Type) where
  chan : Chan T
  senders : Nat
  receiverLive : Bool
  deriving DecidableEq

/-- The configuration produced by `channel()` of value.rs: empty cell,
unpoisoned lock, one `Sender`, a live `Receiver`. -/
def channelWorld (T : Type) : HandleWorld T := ⟨⟨none, false⟩, 1, true⟩

/-- Dropping the `Receiver`. -/
def dropReceiver {T : Type} (w : HandleWorld T) : HandleWorld T :=
  { w with receiverLive := false }

/-- Dropping every `Sender` clone. -/
def dropAllSenders {T : Type} (w : HandleWorld T) : HandleWorld T :=
  { w with senders := 0 }

/-- `Sender::send` as seen from a handle configuration. -/
def worldSend {T : Type} (w : HandleWorld T) (t : T) :
    Except (SendError T) Unit × HandleWorld T :=
  ((send w.chan t).1, { w with chan := (send w.chan t).2 })

/-- `Receiver::recv` as seen from a handle configuration. -/
def worldRecv {T : Type} (w : HandleWorld T) :
    Except RecvError T × HandleWorld T :=
  ((recv w.chan).1, { w with chan := (recv w.chan).2 })

/-- A store of scalar channel cells addressed by `ref`, with a counter for
allocating fresh handle ids. -/
structure CellStore (T : Type) where
  cells : Nat → Chan T
  nextId : Nat

/-- `impl Clone for Sender` of value.rs: the new handle clones the pointer of
the original (same `ref`); no cell is read or written, no lock is touched and
no error can occur. -/
def cloneSender {T : Type} (w : CellStore T) (s : SenderHandle) :
    CellStore T × SenderHandle :=
  ({ w with nextId := w.nextId + 1 }, ⟨w.nextId, s.ref⟩)

/-- `Sender::send` through a handle: acts on the cell the handle refers to. -/
def sendThrough {T : Type} (w : CellStore T) (s : SenderHandle) (t : T) :
    Except (SendError T) Unit × CellStore T :=
  ((send (w.cells s.ref) t).1,
    { w with cells := fun n => if n = s.ref then (send (w.cells s.ref) t).2 else w.cells n })

end Value

namespace Map

variable {K V : Type}

/-- `HashMap::insert` on the association-list model of `HashMap<K, Option<V>>`:
replace the entry of `k` when present, otherwise add one.  Keys stay unique. -/
def insertKV [DecidableEq K] (l : List (K × Option V)) (k : K) (v : Option V) :
    List (K × Option V) :=
  match l with
  | [] => [(k, v)]
  | (k0, v0) :: rest => if k0 = k then (k, v) :: rest else (k0, v0) :: insertKV rest k v

/-- `HashMap::get` on the association-list model: `some w` when key `k` has
entry `w : Option V`, `none` when `k` is absent from the map. -/
def lookupKV [DecidableEq K] (l : List (K × Option V)) (k : K) : Option (Option V) :=
  match l with
  | [] => none
  | (k0, v0) :: rest => if k0 = k then some v0 else lookupKV rest k

/-- The `iter_mut().filter_map(...)` drain of `Receiver::recv`/`try_recv` in
map.rs: the first component is the collected batch of `(key, value)` pairs for
entries whose option was `Some` (each obtained by `value.take()`), the second
component is the map afterwards, every drained entry left in place with value
`None`. -/
def drain (l : List (K × Option V)) : List (K × V) × List (K × Option V) :=
  match l with
  | [] => ([], [])
  | (k, some v) :: rest => ((k, v) :: (drain rest).1, (k, none) :: (drain rest).2)
  | (k, none) :: rest => ((drain rest).1, (k, none) :: (drain rest).2)

/-- The shared cell of the keyed channel: `Arc<Mutex<HashMap<K, Option<V>>>>`. -/
structure Chan (K V : Type) where
  map : List (K × Option V)
  poisoned : Bool
  deriving DecidableEq

/-- `pub struct SendError<K, V>(K, V);` of map.rs. -/
structure SendError (K V : Type) where
  key : K
  val : V
  deriving DecidableEq

/-- `pub enum TrySendError<K, V>` of map.rs. -/
inductive TrySendError (K V : Type) where
  | channelClosed (k : K) (v : V)
  | wouldBlock (k : K) (v : V)
  deriving DecidableEq

/-- `pub struct RecvError;` of map.rs — the only receive error is
"channel closed"; there is no NoNewValue variant. -/
structure RecvError where
  deriving DecidableEq

/-- `pub enum TryRecvError` of map.rs — `ChannelClosed` and `WouldBlock` only;
there is no NoNewValue variant. -/
inductive TryRecvError where
  | channelClosed
  | wouldBlock
  deriving DecidableEq

/-- `Sender::send` of map.rs.  `strong` is the strong count of the inner
`Arc<Mutex<..>>` observed by `downgrade().upgrade()`; the upgrade fails (and
the closed branch is taken) exactly when it is zero.  Then `lock()` either
hits a poisoned mutex (`SendError(key, value)`) or inserts
`(key, Some(value))`. -/
def send [DecidableEq K] (strong : Nat) (ch : Chan K V) (k : K) (v : V) :
    Except (SendError K V) Unit × Chan K V :=
  if strong = 0 then (Except.error ⟨k, v⟩, ch)
  else if ch.poisoned then (Except.error ⟨k, v⟩, ch)
  else (Except.ok (), { ch with map := insertKV ch.map k (some v) })

/-- `Sender::try_send` of map.rs. -/
def try_send [DecidableEq K] (strong : Nat) (contended : Bool) (ch : Chan K V)
    (k : K) (v : V) : Except (TrySendError K V) Unit × Chan K V :=
  if strong = 0 then (Except.error (TrySendError.channelClosed k v), ch)
  else if contended then (Except.error (TrySendError.wouldBlock k v), ch)
  else if ch.poisoned then (Except.error (TrySendError.channelClosed k v), ch)
  else (Except.ok (), { ch with map := insertKV ch.map k (some v) })

/-- `Receiver::recv` of map.rs: after the upgrade check, a poisoned lock gives
`RecvError`; otherwise the whole pending batch is drained and returned. -/
def recv (strong : Nat) (ch : Chan K V) :
    Except RecvError (List (K × V)) × Chan K V :=
  if strong = 0 then (Except.error ⟨⟩, ch)
  else if ch.poisoned then (Except.error ⟨⟩, ch)
  else (Except.ok (drain ch.map).1, { ch with map := (drain ch.map).2 })

/-- `Receiver::try_recv` of map.rs. -/
def try_recv (strong : Nat) (contended : Bool) (ch : Chan K V) :
    Except TryRecvError (List (K × V)) × Chan K V :=
  if strong = 0 then (Except.error TryRecvError.channelClosed, ch)
  else if contended then (Except.error TryRecvError.wouldBlock, ch)
  else if ch.poisoned then (Except.error TryRecvError.channelClosed, ch)
  else (Except.ok (drain ch.map).1, { ch with map := (drain ch.map).2 })

theorem lookupKV_insertKV_self [DecidableEq K] (l : List (K × Option V)) (k : K)
    (v : Option V) : lookupKV (insertKV l k v) k = some v := by
  induction l with
  | nil => simp [insertKV, lookupKV]
  | cons p rest ih =>
    obtain ⟨k0, v0⟩ := p
    by_cases h : k0 = k <;> simp [insertKV, lookupKV, h, ih]

theorem drain_cons_some (k0 : K) (w : V) (rest : List (K × Option V)) :
    drain ((k0, some w) :: rest) =
      ((k0, w) :: (drain rest).1, (k0, none) :: (drain rest).2) := rfl

theorem drain_cons_none (k0 : K) (rest : List (K × Option V)) :
    drain ((k0, none) :: rest) = ((drain rest).1, (k0, none) :: (drain rest).2) := rfl

theorem lookupKV_insertKV_ne [DecidableEq K] (l : List (K × Option V)) (k k1 : K)
    (v : Option V) (h : k1 ≠ k) : lookupKV (insertKV l k v) k1 = lookupKV l k1 := by
  have hk : k ≠ k1 := Ne.symm h
  induction l with
  | nil => simp [insertKV, lookupKV, hk]
  | cons p rest ih =>
    obtain ⟨k0, v0⟩ := p
    by_cases h0 : k0 = k
    · subst h0
      simp [insertKV, lookupKV, hk]
    · simp [insertKV, lookupKV, h0, ih]

theorem keys_insertKV_mem [DecidableEq K] (l : List (K × Option V)) (k : K)
    (v : Option V) (h : k ∈ l.map Prod.fst) :
    (insertKV l k v).map Prod.fst = l.map Prod.fst := by
  induction l with
  | nil => simp at h
  | cons p rest ih =>
    obtain ⟨k0, v0⟩ := p
    by_cases h0 : k0 = k
    · subst h0
      simp [insertKV]
    · simp only [List.map_cons, List.mem_cons] at h
      rcases h with h | h
      · exact absurd h.symm h0
      · simp [insertKV, h0, ih h]

theorem keys_insertKV_not_mem [DecidableEq K] (l : List (K × Option V)) (k : K)
    (v : Option V) (h : k ∉ l.map Prod.fst) :
    (insertKV l k v).map Prod.fst = l.map Prod.fst ++ [k] := by
  induction l with
  | nil => simp [insertKV]
  | cons p rest ih =>
    obtain ⟨k0, v0⟩ := p
    simp only [List.map_cons, List.mem_cons] at h
    push_neg at h
    have h0 : ¬ k0 = k := fun he => h.1 he.symm
    simp [insertKV, h0, ih h.2]

theorem mem_keys_insertKV [DecidableEq K] (l : List (K × Option V)) (k k1 : K)
    (v : Option V) (h : k1 ∈ l.map Prod.fst) :
    k1 ∈ (insertKV l k v).map Prod.fst := by
  by_cases hm : k ∈ l.map Prod.fst
  · rw [keys_insertKV_mem l k v hm]
    exact h
  · rw [keys_insertKV_not_mem l k v hm]
    exact List.mem_append_left _ h

theorem keys_insertKV_nodup [DecidableEq K] (l : List (K × Option V)) (k : K)
    (v : Option V) (h : (l.map Prod.fst).Nodup) :
    ((insertKV l k v).map Prod.fst).Nodup := by
  by_cases hm : k ∈ l.map Prod.fst
  · rw [keys_insertKV_mem l k v hm]
    exact h
  · rw [keys_insertKV_not_mem l k v hm]
    simp [List.nodup_append, h, hm]

theorem keys_drain_snd (l : List (K × Option V)) :
    (drain l).2 = l.map (fun p => (p.1, none)) := by
  induction l with
  | nil => simp [drain]
  | cons p rest ih =>
    obtain ⟨k0, v0⟩ := p
    cases v0 with
    | none => rw [drain_cons_none, List.map_cons, ih]
    | some w => rw [drain_cons_some, List.map_cons, ih]

theorem drain_fst_key_mem (l : List (K × Option V)) (p : K × V)
    (h : p ∈ (drain l).1) : p.1 ∈ l.map Prod.fst := by
  induction l with
  | nil => simp [drain] at h
  | cons q rest ih =>
    obtain ⟨k0, v0⟩ := q
    cases v0 with
    | none =>
      rw [drain_cons_none] at h
      rw [List.map_cons]
      exact List.mem_cons_of_mem _ (ih h)
    | some w =>
      rw [drain_cons_some] at h
      rw [List.map_cons]
      rcases List.mem_cons.mp h with h1 | h1
      · rw [h1]
        exact List.mem_cons_self _ _
      · exact List.mem_cons_of_mem _ (ih h1)

theorem mem_drain_fst_iff [DecidableEq K] (l : List (K × Option V)) (k : K) (v : V)
    (hnd : (l.map Prod.fst).Nodup) :
    ((k, v) ∈ (drain l).1 ↔ lookupKV l k = some (some v)) := by
  induction l with
  | nil => simp [drain, lookupKV]
  | cons q rest ih =>
    obtain ⟨k0, v0⟩ := q
    rw [List.map_cons, List.nodup_cons] at hnd
    obtain ⟨hk0, hnd1⟩ := hnd
    by_cases h0 : k0 = k
    · subst h0
      have hnotin : (k0, v) ∉ (drain rest).1 := fun hw =>
        hk0 (drain_fst_key_mem rest (k0, v) hw)
      cases v0 with
      | none =>
        rw [drain_cons_none,
          show lookupKV ((k0, (none : Option V)) :: rest) k0 = some none from by
            simp [lookupKV]]
        simp [hnotin]
      | some w =>
        rw [drain_cons_some,
          show lookupKV ((k0, some w) :: rest) k0 = some (some w) from by
            simp [lookupKV]]
        constructor
        · intro h
          rcases List.mem_cons.mp h with h | h
          · rw [Prod.mk.injEq] at h
            rw [h.2]
          · exact absurd h hnotin
        · intro h
          have hw : w = v := by simpa using h
          rw [hw]
          exact List.mem_cons_self _ _
    · have hlk : lookupKV ((k0, v0) :: rest) k = lookupKV rest k := by
        simp [lookupKV, h0]
      rw [hlk]
      cases v0 with
      | none =>
        rw [drain_cons_none]
        exact ih hnd1
      | some w =>
        rw [drain_cons_some]
        constructor
        · intro h
          rcases List.mem_cons.mp h with h | h
          · rw [Prod.mk.injEq] at h
            exact absurd h.1.symm h0
          · exact (ih hnd1).mp h
        · intro h
          exact List.mem_cons_of_mem _ ((ih hnd1).mpr h)

theorem drain_keys_nodup (l : List (K × Option V))
    (hnd : (l.map Prod.fst).Nodup) : ((drain l).1.map Prod.fst).Nodup := by
  induction l with
  | nil => simp [drain]
  | cons q rest ih =>
    obtain ⟨k0, v0⟩ := q
    rw [List.map_cons, List.nodup_cons] at hnd
    obtain ⟨hk0, hnd1⟩ := hnd
    cases v0 with
    | none =>
      rw [drain_cons_none]
      exact ih hnd1
    | some w =>
      rw [drain_cons_some, List.map_cons, List.nodup_cons]
      refine ⟨?_, ih hnd1⟩
      intro hmem
      rcases List.mem_map.mp hmem with ⟨p, hp, hfst⟩
      exact hk0 (hfst ▸ drain_fst_key_mem rest p hp)

theorem drain_all_none (l : List (K × Option V))
    (h : ∀ p ∈ l, p.2 = none) : (drain l).1 = [] := by
  induction l with
  | nil => rfl
  | cons q rest ih =>
    obtain ⟨k0, v0⟩ := q
    have h0 : v0 = none := h (k0, v0) (List.mem_cons_self _ _)
    subst h0
    rw [drain_cons_none]
    exact ih fun p hp => h p (List.mem_cons_of_mem _ hp)

theorem drain_drain (l : List (K × Option V)) : (drain (drain l).2).1 = [] := by
  rw [keys_drain_snd]
  refine drain_all_none _ ?_
  intro p hp
  rcases List.mem_map.mp hp with ⟨a, _, ha⟩
  rw [← ha]

theorem send_ok [DecidableEq K] (strong : Nat) (ch : Chan K V) (k : K) (v : V)
    (hs : strong ≠ 0) (hp : ch.poisoned = false) :
    send strong ch k v = (Except.ok (), ⟨insertKV ch.map k (some v), false⟩) := by
  cases ch
  simp_all [send]

theorem recv_ok (strong : Nat) (ch : Chan K V) (hs : strong ≠ 0)
    (hp : ch.poisoned = false) :
    recv strong ch = (Except.ok (drain ch.map).1, ⟨(drain ch.map).2, false⟩) := by
  cases ch
  simp_all [recv]

theorem try_recv_ok (strong : Nat) (ch : Chan K V) (hs : strong ≠ 0)
    (hp : ch.poisoned = false) :
    try_recv strong false ch =
      (Except.ok (drain ch.map).1, ⟨(drain ch.map).2, false⟩) := by
  cases ch
  simp_all [try_recv]

/-- A configuration of handles around one keyed channel, tracking handle
liveness.  Dropping a handle only decrements `Arc` counts. -/
structure HandleWorld (K V : Type) where
  chan : Chan K V
  senders : Nat
  receiverLive : Bool
  deriving DecidableEq

/-- The configuration produced by `channel()` of map.rs: empty map, unpoisoned
lock, one `Sender`, a live `Receiver`. -/
def channelWorld (K V : Type) : HandleWorld K V := ⟨⟨[], false⟩, 1, true⟩

/-- Dropping the `Receiver`. -/
def dropReceiver {K V : Type} (w : HandleWorld K V) : HandleWorld K V :=
  { w with receiverLive := false }

/-- Dropping every `Sender` clone. -/
def dropAllSenders {K V : Type} (w : HandleWorld K V) : HandleWorld K V :=
  { w with senders := 0 }

/-- The strong count of the inner `Arc<Mutex<HashMap<..>>>`: `channel()` of
map.rs hands one strong reference to the `Receiver` and one to the
`Arc<UnsafeCell<..>>` cell shared by every `Sender` clone (cloning a `Sender`
clones the outer `Arc` only, so the sender side contributes one reference as
long as any `Sender` clone is alive). -/
def strongCount {K V : Type} (w : HandleWorld K V) : Nat :=
  (if w.senders = 0 then 0 else 1) + (if w.receiverLive then 1 else 0)

/-- `Sender::send` of map.rs as seen from a handle configuration: the
`downgrade().upgrade()` check observes the current strong count. -/
def worldSend {K V : Type} [DecidableEq K] (w : HandleWorld K V) (k : K) (v : V) :
    Except (SendError K V) Unit × HandleWorld K V :=
  ((send (strongCount w) w.chan k v).1,
    { w with chan := (send (strongCount w) w.chan k v).2 })

/-- `Receiver::recv` of map.rs as seen from a handle configuration. -/
def worldRecv {K V : Type} (w : HandleWorld K V) :
    Except RecvError (List (K × V)) × HandleWorld K V :=
  ((recv (strongCount w) w.chan).1, { w with chan := (recv (strongCount w) w.chan).2 })

/-- A store of keyed channel cells addressed by `ref`, with a counter for
allocating fresh handle ids. -/
structure CellStore (K V : Type) where
  cells : Nat → Chan K V
  nextId : Nat

/-- `impl Clone for Sender` of map.rs: the new handle clones the pointer of
the original (same `ref`); no cell is read or written, no lock is touched and
no error can occur. -/
def cloneSender {K V : Type} (w : CellStore K V) (s : SenderHandle) :
    CellStore K V × SenderHandle :=
  ({ w with nextId := w.nextId + 1 }, ⟨w.nextId, s.ref⟩)

/-- `Sender::send` through a handle: acts on the cell the handle refers to. -/
def sendThrough {K V : Type} [DecidableEq K] (strong : Nat) (w : CellStore K V)
    (s : SenderHandle) (k : K) (v : V) :
    Except (SendError K V) Unit × CellStore K V :=
  ((send strong (w.cells s.ref) k v).1,
    { w with cells := fun n =>
        if n = s.ref then (send strong (w.cells s.ref) k v).2 else w.cells n })

end Map

end Latest

/-- C1: after `send v1` then `send v2` on a scalar channel (both succeeding,
no receive in between, lock not poisoned), the first subsequent `recv` returns
`Ok v2`, every later `recv` returns `NoNewValue`, and no `recv` ever returns
`v1`. -/
theorem Latest.scalar_overwrite {T : Type} (ch : Latest.Value.Chan T) (v1 v2 : T)
    (hp : ch.poisoned = false) (hne : v1 ≠ v2) :
    (Latest.Value.send ch v1).1 = Except.ok () ∧
    (Latest.Value.send (Latest.Value.send ch v1).2 v2).1 = Except.ok () ∧
    (Latest.Value.recvN (Latest.Value.send (Latest.Value.send ch v1).2 v2).2 0).1 =
      Except.ok v2 ∧
    (∀ n, 1 ≤ n →
      (Latest.Value.recvN (Latest.Value.send (Latest.Value.send ch v1).2 v2).2 n).1 =
        Except.error Latest.Value.RecvError.noNewValue) ∧
    (∀ n, (Latest.Value.recvN (Latest.Value.send (Latest.Value.send ch v1).2 v2).2 n).1 ≠
      Except.ok v1) := by
  have h1 := Latest.Value.send_not_poisoned ch v1 hp
  have h2 : Latest.Value.send (Latest.Value.send ch v1).2 v2 =
      (Except.ok (), ⟨some v2, false⟩) := by
    rw [h1]
    exact Latest.Value.send_not_poisoned _ v2 rfl
  refine ⟨by rw [h1], by rw [h2], ?_, ?_, ?_⟩
  · rw [h2]
    simp [Latest.Value.recvN, Latest.Value.recv]
  · intro n hn
    rw [h2]
    match n, hn with
    | n + 1, _ =>
      show (Latest.Value.recvN (Latest.Value.recv ⟨some v2, false⟩).2 n).1 = _
      have : (Latest.Value.recv (⟨some v2, false⟩ : Latest.Value.Chan T)).2 =
          ⟨none, false⟩ := by simp [Latest.Value.recv]
      rw [this, Latest.Value.recvN_empty]
  · intro n
    rw [h2]
    match n with
    | 0 =>
      simp [Latest.Value.recvN, Latest.Value.recv]
      intro h
      exact hne h.symm
    | n + 1 =>
      show (Latest.Value.recvN (Latest.Value.recv ⟨some v2, false⟩).2 n).1 ≠ _
      have : (Latest.Value.recv (⟨some v2, false⟩ : Latest.Value.Chan T)).2 =
          ⟨none, false⟩ := by simp [Latest.Value.recv]
      rw [this, Latest.Value.recvN_empty]
      simp

/-- Witness for C1 at the concrete channel `⟨none, false⟩` with `v1 = 1`,
`v2 = 2`. -/
theorem Latest.scalar_overwrite_witness :
    (Latest.Value.send (⟨none, false⟩ : Latest.Value.Chan Nat) 1).1 = Except.ok () ∧
    (Latest.Value.send (Latest.Value.send (⟨none, false⟩ : Latest.Value.Chan Nat) 1).2 2).1 =
      Except.ok () ∧
    (Latest.Value.recvN
      (Latest.Value.send (Latest.Value.send (⟨none, false⟩ : Latest.Value.Chan Nat) 1).2 2).2 0).1 =
      Except.ok 2 ∧
    (∀ n, 1 ≤ n →
      (Latest.Value.recvN
        (Latest.Value.send (Latest.Value.send (⟨none, false⟩ : Latest.Value.Chan Nat) 1).2 2).2 n).1 =
        Except.error Latest.Value.RecvError.noNewValue) ∧
    (∀ n,
      (Latest.Value.recvN
        (Latest.Value.send (Latest.Value.send (⟨none, false⟩ : Latest.Value.Chan Nat) 1).2 2).2 n).1 ≠
      Except.ok 1) :=
  Latest.scalar_overwrite ⟨none, false⟩ 1 2 rfl (by decide)

/-- C2: keyed per-key independence.  After `send k1 v1` then `send k2 v2` with
`k1 ≠ k2` (no receive in between), a single `recv` returns `Ok` of a batch
containing `(k1, v1)` and `(k2, v2)`, with no duplicated key (so each pair
occurs exactly once).  After `send k1 v1` then `send k1 v2`, the map holds
`Some v2` at `k1`, entries of all other keys are unchanged, and the `recv`
batch contains `(k1, v2)` and no other pair with key `k1`. -/
theorem Latest.keyed_independence {K V : Type} [DecidableEq K]
    (ch : Latest.Map.Chan K V) (k1 k2 : K) (v1 v2 : V) (strong : Nat)
    (hs : 0 < strong) (hp : ch.poisoned = false)
    (hnd : (ch.map.map Prod.fst).Nodup) (hk : k1 ≠ k2) :
    ((Latest.Map.recv strong
        (Latest.Map.send strong (Latest.Map.send strong ch k1 v1).2 k2 v2).2).1 =
      Except.ok
        (Latest.Map.drain
          (Latest.Map.send strong (Latest.Map.send strong ch k1 v1).2 k2 v2).2.map).1) ∧
    (k1, v1) ∈ (Latest.Map.drain
      (Latest.Map.send strong (Latest.Map.send strong ch k1 v1).2 k2 v2).2.map).1 ∧
    (k2, v2) ∈ (Latest.Map.drain
      (Latest.Map.send strong (Latest.Map.send strong ch k1 v1).2 k2 v2).2.map).1 ∧
    ((Latest.Map.drain
      (Latest.Map.send strong (Latest.Map.send strong ch k1 v1).2 k2 v2).2.map).1.map
        Prod.fst).Nodup ∧
    Latest.Map.lookupKV
      (Latest.Map.send strong (Latest.Map.send strong ch k1 v1).2 k1 v2).2.map k1 =
      some (some v2) ∧
    (∀ k, k ≠ k1 →
      Latest.Map.lookupKV
        (Latest.Map.send strong (Latest.Map.send strong ch k1 v1).2 k1 v2).2.map k =
        Latest.Map.lookupKV ch.map k) ∧
    (k1, v2) ∈ (Latest.Map.drain
      (Latest.Map.send strong (Latest.Map.send strong ch k1 v1).2 k1 v2).2.map).1 ∧
    (∀ v, (k1, v) ∈ (Latest.Map.drain
      (Latest.Map.send strong (Latest.Map.send strong ch k1 v1).2 k1 v2).2.map).1 →
      v = v2) := by
  have hs0 : strong ≠ 0 := Nat.pos_iff_ne_zero.mp hs
  have e1 := Latest.Map.send_ok strong ch k1 v1 hs0 hp
  rw [e1]
  have e2 := Latest.Map.send_ok strong
    (⟨Latest.Map.insertKV ch.map k1 (some v1), false⟩ : Latest.Map.Chan K V) k2 v2 hs0 rfl
  have e3 := Latest.Map.send_ok strong
    (⟨Latest.Map.insertKV ch.map k1 (some v1), false⟩ : Latest.Map.Chan K V) k1 v2 hs0 rfl
  rw [e2, e3]
  have hndA : ((Latest.Map.insertKV
      (Latest.Map.insertKV ch.map k1 (some v1)) k2 (some v2)).map Prod.fst).Nodup :=
    Latest.Map.keys_insertKV_nodup _ k2 _ (Latest.Map.keys_insertKV_nodup _ k1 _ hnd)
  have hndB : ((Latest.Map.insertKV
      (Latest.Map.insertKV ch.map k1 (some v1)) k1 (some v2)).map Prod.fst).Nodup :=
    Latest.Map.keys_insertKV_nodup _ k1 _ (Latest.Map.keys_insertKV_nodup _ k1 _ hnd)
  have hlA1 : Latest.Map.lookupKV
      (Latest.Map.insertKV (Latest.Map.insertKV ch.map k1 (some v1)) k2 (some v2)) k1 =
      some (some v1) := by
    rw [Latest.Map.lookupKV_insertKV_ne _ k2 k1 _ hk,
      Latest.Map.lookupKV_insertKV_self]
  have hlA2 : Latest.Map.lookupKV
      (Latest.Map.insertKV (Latest.Map.insertKV ch.map k1 (some v1)) k2 (some v2)) k2 =
      some (some v2) := Latest.Map.lookupKV_insertKV_self _ k2 _
  have hlB1 : Latest.Map.lookupKV
      (Latest.Map.insertKV (Latest.Map.insertKV ch.map k1 (some v1)) k1 (some v2)) k1 =
      some (some v2) := Latest.Map.lookupKV_insertKV_self _ k1 _
  refine ⟨?_, ?_, ?_, ?_, ?_, ?_, ?_, ?_⟩
  · rw [Latest.Map.recv_ok strong _ hs0 rfl]
  · exact (Latest.Map.mem_drain_fst_iff _ k1 v1 hndA).mpr hlA1
  · exact (Latest.Map.mem_drain_fst_iff _ k2 v2 hndA).mpr hlA2
  · exact Latest.Map.drain_keys_nodup _ hndA
  · exact hlB1
  · intro k hkk
    rw [Latest.Map.lookupKV_insertKV_ne _ k1 k _ hkk,
      Latest.Map.lookupKV_insertKV_ne _ k1 k _ hkk]
  · exact (Latest.Map.mem_drain_fst_iff _ k1 v2 hndB).mpr hlB1
  · intro v hv
    have := (Latest.Map.mem_drain_fst_iff _ k1 v hndB).mp hv
    rw [hlB1] at this
    exact (Option.some_inj.mp (Option.some_inj.mp this)).symm

/-- Witness for C2 at the empty keyed channel with `k1 = 0`, `k2 = 1`,
`v1 = 10`, `v2 = 20`, strong count 1. -/
theorem Latest.keyed_independence_witness :
    ((Latest.Map.recv 1
        (Latest.Map.send 1 (Latest.Map.send 1 (⟨[], false⟩ : Latest.Map.Chan Nat Nat) 0 10).2 1 20).2).1 =
      Except.ok
        (Latest.Map.drain
          (Latest.Map.send 1 (Latest.Map.send 1 (⟨[], false⟩ : Latest.Map.Chan Nat Nat) 0 10).2 1 20).2.map).1) ∧
    (0, 10) ∈ (Latest.Map.drain
      (Latest.Map.send 1 (Latest.Map.send 1 (⟨[], false⟩ : Latest.Map.Chan Nat Nat) 0 10).2 1 20).2.map).1 ∧
    (1, 20) ∈ (Latest.Map.drain
      (Latest.Map.send 1 (Latest.Map.send 1 (⟨[], false⟩ : Latest.Map.Chan Nat Nat) 0 10).2 1 20).2.map).1 ∧
    ((Latest.Map.drain
      (Latest.Map.send 1 (Latest.Map.send 1 (⟨[], false⟩ : Latest.Map.Chan Nat Nat) 0 10).2 1 20).2.map).1.map
        Prod.fst).Nodup ∧
    Latest.Map.lookupKV
      (Latest.Map.send 1 (Latest.Map.send 1 (⟨[], false⟩ : Latest.Map.Chan Nat Nat) 0 10).2 0 20).2.map 0 =
      some (some 20) ∧
    (∀ k, k ≠ 0 →
      Latest.Map.lookupKV
        (Latest.Map.send 1 (Latest.Map.send 1 (⟨[], false⟩ : Latest.Map.Chan Nat Nat) 0 10).2 0 20).2.map k =
        Latest.Map.lookupKV ([] : List (Nat × Option Nat)) k) ∧
    (0, 20) ∈ (Latest.Map.drain
      (Latest.Map.send 1 (Latest.Map.send 1 (⟨[], false⟩ : Latest.Map.Chan Nat Nat) 0 10).2 0 20).2.map).1 ∧
    (∀ v, (0, v) ∈ (Latest.Map.drain
      (Latest.Map.send 1 (Latest.Map.send 1 (⟨[], false⟩ : Latest.Map.Chan Nat Nat) 0 10).2 0 20).2.map).1 →
      v = 20) :=
  Latest.keyed_independence ⟨[], false⟩ 0 1 10 20 1 (by decide) rfl (by simp) (by decide)

/-- C3 (evaluation of the code at the failing inputs): the claim requires
every operation after the counterpart's drop to return ChannelClosed, but on
a fresh channel with the `Receiver` dropped, the scalar and the keyed `send`
both succeed, and with every `Sender` dropped, the scalar `recv` returns
`NoNewValue` and the keyed `recv` returns `Ok []` — never ChannelClosed,
because dropping handles only decrements `Arc` counts that no operation
inspects (value.rs has its liveness check commented out; in map.rs the check
upgrades a reference the caller itself keeps alive). -/
theorem Latest.closed_channel_not_detected :
    (Latest.Value.worldSend (Latest.Value.dropReceiver (Latest.Value.channelWorld Nat)) 5).1 =
      Except.ok () ∧
    (Latest.Value.worldRecv (Latest.Value.dropAllSenders (Latest.Value.channelWorld Nat))).1 =
      Except.error Latest.Value.RecvError.noNewValue ∧
    (Latest.Map.worldSend (Latest.Map.dropReceiver (Latest.Map.channelWorld Nat Nat)) 0 7).1 =
      Except.ok () ∧
    (Latest.Map.worldRecv (Latest.Map.dropAllSenders (Latest.Map.channelWorld Nat Nat))).1 =
      Except.ok [] :=
  ⟨rfl, rfl, rfl, rfl⟩

/-- C4 (amended): after a successful receive, an immediate second receive with
no intervening send yields nothing again — in the scalar variant `recv` and
`try_recv` return `NoNewValue`; in the keyed variant, whose receive error
types have no NoNewValue variant, `recv` and `try_recv` return `Ok` of the
empty batch.  In both variants no sent value is ever returned by two
receives. -/
theorem Latest.idempotent_drain {T K V : Type} [DecidableEq K]
    (ch : Latest.Value.Chan T) (t : T) (chm : Latest.Map.Chan K V) (strong : Nat)
    (hp : ch.poisoned = false) (hst : ch.stored = some t)
    (hs : 0 < strong) (hpm : chm.poisoned = false) :
    (Latest.Value.recv ch).1 = Except.ok t ∧
    (Latest.Value.recv (Latest.Value.recv ch).2).1 =
      Except.error Latest.Value.RecvError.noNewValue ∧
    (Latest.Value.try_recv false (Latest.Value.recv ch).2).1 =
      Except.error Latest.Value.TryRecvError.noNewValue ∧
    (Latest.Map.recv strong chm).1 =
      Except.ok (Latest.Map.drain chm.map).1 ∧
    (Latest.Map.recv strong (Latest.Map.recv strong chm).2).1 =
      Except.ok ([] : List (K × V)) ∧
    (Latest.Map.try_recv strong false (Latest.Map.recv strong chm).2).1 =
      Except.ok ([] : List (K × V)) := by
  have hs0 : strong ≠ 0 := Nat.pos_iff_ne_zero.mp hs
  have hch : Latest.Value.recv ch = (Except.ok t, ⟨none, false⟩) := by
    cases ch
    simp_all [Latest.Value.recv]
  have hm := Latest.Map.recv_ok strong chm hs0 hpm
  refine ⟨by rw [hch], ?_, ?_, by rw [hm], ?_, ?_⟩
  · rw [hch]
    simp [Latest.Value.recv]
  · rw [hch]
    simp [Latest.Value.try_recv]
  · rw [hm, Latest.Map.recv_ok strong _ hs0 rfl, Latest.Map.drain_drain]
  · rw [hm, Latest.Map.try_recv_ok strong _ hs0 rfl, Latest.Map.drain_drain]

/-- Witness for C4 at the scalar channel `⟨some 3, false⟩` and the keyed
channel `⟨[(0, some 1)], false⟩` with strong count 1. -/
theorem Latest.idempotent_drain_witness :
    (Latest.Value.recv (⟨some 3, false⟩ : Latest.Value.Chan Nat)).1 = Except.ok 3 ∧
    (Latest.Value.recv (Latest.Value.recv (⟨some 3, false⟩ : Latest.Value.Chan Nat)).2).1 =
      Except.error Latest.Value.RecvError.noNewValue ∧
    (Latest.Value.try_recv false (Latest.Value.recv (⟨some 3, false⟩ : Latest.Value.Chan Nat)).2).1 =
      Except.error Latest.Value.TryRecvError.noNewValue ∧
    (Latest.Map.recv 1 (⟨[(0, some 1)], false⟩ : Latest.Map.Chan Nat Nat)).1 =
      Except.ok (Latest.Map.drain [(0, some 1)]).1 ∧
    (Latest.Map.recv 1 (Latest.Map.recv 1 (⟨[(0, some 1)], false⟩ : Latest.Map.Chan Nat Nat)).2).1 =
      Except.ok ([] : List (Nat × Nat)) ∧
    (Latest.Map.try_recv 1 false (Latest.Map.recv 1 (⟨[(0, some 1)], false⟩ : Latest.Map.Chan Nat Nat)).2).1 =
      Except.ok ([] : List (Nat × Nat)) :=
  Latest.idempotent_drain ⟨some 3, false⟩ 3 ⟨[(0, some 1)], false⟩ 1 rfl rfl (by decide) rfl

/-- C4 counterexample: the claim as stated fails on the keyed variant — after
a successful `recv` of the pending batch `[(0, 1)]`, the immediate second
`recv` returns `Ok []`, not a NoNewValue error (the keyed receive error type
has no such variant; its only inhabitant means "channel closed"). -/
theorem Latest.keyed_drain_counterexample :
    (Latest.Map.recv 1
      (Latest.Map.recv 1 (⟨[(0, some 1)], false⟩ : Latest.Map.Chan Nat Nat)).2).1 =
      Except.ok [] ∧
    (Latest.Map.recv 1
      (Latest.Map.recv 1 (⟨[(0, some 1)], false⟩ : Latest.Map.Chan Nat Nat)).2).1 ≠
      Except.error ⟨⟩ :=
  ⟨rfl, fun h => Except.noConfusion
    (((show (Latest.Map.recv 1
        (Latest.Map.recv 1 (⟨[(0, some 1)], false⟩ : Latest.Map.Chan Nat Nat)).2).1 =
        Except.ok [] from rfl) ▸ h : (Except.ok [] : Except Latest.Map.RecvError (List (Nat × Nat))) = Except.error ⟨⟩))⟩

/-- C5 (amended): a scalar receive that finds no unread update returns the
NoNewValue outcome, distinct from ChannelClosed.  The keyed receive error
types have no NoNewValue variant: a keyed receive that finds no unread update
returns `Ok` of the empty batch, likewise distinguishable from a
ChannelClosed error. -/
theorem Latest.no_new_value_taxonomy {T K V : Type} [DecidableEq K]
    (ch : Latest.Value.Chan T) (chm : Latest.Map.Chan K V) (strong : Nat)
    (hp : ch.poisoned = false) (hst : ch.stored = none)
    (hs : 0 < strong) (hpm : chm.poisoned = false)
    (hall : ∀ p ∈ chm.map, p.2 = none) :
    (Latest.Value.recv ch).1 = Except.error Latest.Value.RecvError.noNewValue ∧
    (Latest.Value.try_recv false ch).1 =
      Except.error Latest.Value.TryRecvError.noNewValue ∧
    Latest.Value.RecvError.noNewValue ≠ Latest.Value.RecvError.channelClosed ∧
    Latest.Value.TryRecvError.noNewValue ≠ Latest.Value.TryRecvError.channelClosed ∧
    (Latest.Map.recv strong chm).1 = Except.ok ([] : List (K × V)) ∧
    (Latest.Map.try_recv strong false chm).1 = Except.ok ([] : List (K × V)) := by
  have hs0 : strong ≠ 0 := Nat.pos_iff_ne_zero.mp hs
  have hempty : (Latest.Map.drain chm.map).1 = [] := Latest.Map.drain_all_none _ hall
  refine ⟨?_, ?_, by simp, by simp, ?_, ?_⟩
  · cases ch
    simp_all [Latest.Value.recv]
  · cases ch
    simp_all [Latest.Value.try_recv]
  · rw [Latest.Map.recv_ok strong chm hs0 hpm, hempty]
  · rw [Latest.Map.try_recv_ok strong chm hs0 hpm, hempty]

/-- Witness for C5 at the empty scalar channel and the keyed channel whose
single entry has no pending update, strong count 1. -/
theorem Latest.no_new_value_taxonomy_witness :
    (Latest.Value.recv (⟨none, false⟩ : Latest.Value.Chan Nat)).1 =
      Except.error Latest.Value.RecvError.noNewValue ∧
    (Latest.Value.try_recv false (⟨none, false⟩ : Latest.Value.Chan Nat)).1 =
      Except.error Latest.Value.TryRecvError.noNewValue ∧
    Latest.Value.RecvError.noNewValue ≠ Latest.Value.RecvError.channelClosed ∧
    Latest.Value.TryRecvError.noNewValue ≠ Latest.Value.TryRecvError.channelClosed ∧
    (Latest.Map.recv 1 (⟨[(0, none)], false⟩ : Latest.Map.Chan Nat Nat)).1 =
      Except.ok ([] : List (Nat × Nat)) ∧
    (Latest.Map.try_recv 1 false (⟨[(0, none)], false⟩ : Latest.Map.Chan Nat Nat)).1 =
      Except.ok ([] : List (Nat × Nat)) :=
  Latest.no_new_value_taxonomy ⟨none, false⟩ ⟨[(0, none)], false⟩ 1 rfl rfl
    (by decide) rfl (by simp)

/-- C5 counterexample: the claim as stated fails on the keyed variant — a
keyed `try_recv` that finds no unread update (single entry, nothing pending)
returns `Ok []`, which is not a NoNewValue error and indeed not an error of
any kind (the keyed try-receive error type only has ChannelClosed and
WouldBlock). -/
theorem Latest.keyed_no_new_value_counterexample :
    (Latest.Map.try_recv 1 false
      (⟨[(0, (none : Option Nat))], false⟩ : Latest.Map.Chan Nat Nat)).1 =
      Except.ok [] ∧
    (Latest.Map.try_recv 1 false
      (⟨[(0, (none : Option Nat))], false⟩ : Latest.Map.Chan Nat Nat)).1 ≠
      Except.error Latest.Map.TryRecvError.channelClosed ∧
    (Latest.Map.try_recv 1 false
      (⟨[(0, (none : Option Nat))], false⟩ : Latest.Map.Chan Nat Nat)).1 ≠
      Except.error Latest.Map.TryRecvError.wouldBlock :=
  ⟨rfl,
    fun h => Except.noConfusion
      ((show (Latest.Map.try_recv 1 false
          (⟨[(0, (none : Option Nat))], false⟩ : Latest.Map.Chan Nat Nat)).1 =
          Except.ok [] from rfl) ▸ h :
        (Except.ok [] : Except Latest.Map.TryRecvError (List (Nat × Nat))) =
          Except.error Latest.Map.TryRecvError.channelClosed),
    fun h => Except.noConfusion
      ((show (Latest.Map.try_recv 1 false
          (⟨[(0, (none : Option Nat))], false⟩ : Latest.Map.Chan Nat Nat)).1 =
          Except.ok [] from rfl) ▸ h :
        (Except.ok [] : Except Latest.Map.TryRecvError (List (Nat × Nat))) =
          Except.error Latest.Map.TryRecvError.wouldBlock)⟩

/-- C6: whenever a send of either variant fails, the error carries back
exactly the attempted value (and key, for the keyed variant) and the storage
cell is left unchanged. -/
theorem Latest.error_carry_back {T K V : Type} [DecidableEq K] :
    (∀ (ch : Latest.Value.Chan T) (t : T) (e : Latest.Value.SendError T),
      (Latest.Value.send ch t).1 = Except.error e →
      e.val = t ∧ (Latest.Value.send ch t).2 = ch) ∧
    (∀ (contended : Bool) (ch : Latest.Value.Chan T) (t : T)
        (e : Latest.Value.TrySendError T),
      (Latest.Value.try_send contended ch t).1 = Except.error e →
      (e = Latest.Value.TrySendError.channelClosed t ∨
        e = Latest.Value.TrySendError.wouldBlock t) ∧
      (Latest.Value.try_send contended ch t).2 = ch) ∧
    (∀ (strong : Nat) (ch : Latest.Map.Chan K V) (k : K) (v : V)
        (e : Latest.Map.SendError K V),
      (Latest.Map.send strong ch k v).1 = Except.error e →
      e.key = k ∧ e.val = v ∧ (Latest.Map.send strong ch k v).2 = ch) ∧
    (∀ (strong : Nat) (contended : Bool) (ch : Latest.Map.Chan K V) (k : K) (v : V)
        (e : Latest.Map.TrySendError K V),
      (Latest.Map.try_send strong contended ch k v).1 = Except.error e →
      (e = Latest.Map.TrySendError.channelClosed k v ∨
        e = Latest.Map.TrySendError.wouldBlock k v) ∧
      (Latest.Map.try_send strong contended ch k v).2 = ch) := by
  refine ⟨?_, ?_, ?_, ?_⟩
  · intro ch t e h
    unfold Latest.Value.send at h ⊢
    split at h
    · simp only [Prod.fst] at h
      rw [← Except.error.inj h]
      exact ⟨rfl, by simp_all⟩
    · exact absurd h (by simp)
  · intro contended ch t e h
    unfold Latest.Value.try_send at h ⊢
    split at h
    · rw [← Except.error.inj h]
      exact ⟨Or.inr rfl, by simp_all⟩
    · split at h
      · rw [← Except.error.inj h]
        exact ⟨Or.inl rfl, by simp_all⟩
      · exact absurd h (by simp)
  · intro strong ch k v e h
    unfold Latest.Map.send at h ⊢
    split at h
    · rw [← Except.error.inj h]
      exact ⟨rfl, rfl, by simp_all⟩
    · split at h
      · rw [← Except.error.inj h]
        exact ⟨rfl, rfl, by simp_all⟩
      · exact absurd h (by simp)
  · intro strong contended ch k v e h
    unfold Latest.Map.try_send at h ⊢
    split at h
    · rw [← Except.error.inj h]
      exact ⟨Or.inl rfl, by simp_all⟩
    · split at h
      · rw [← Except.error.inj h]
        exact ⟨Or.inr rfl, by simp_all⟩
      · split at h
        · rw [← Except.error.inj h]
          exact ⟨Or.inl rfl, by simp_all⟩
        · exact absurd h (by simp)

/-- Witness for C6: a poisoned scalar send, a contended scalar try_send, a
keyed send with strong count zero, a keyed try_send with strong count
zero. -/
theorem Latest.error_carry_back_witness :
    ((⟨5⟩ : Latest.Value.SendError Nat).val = 5 ∧
      (Latest.Value.send (⟨none, true⟩ : Latest.Value.Chan Nat) 5).2 = ⟨none, true⟩) ∧
    ((Latest.Value.TrySendError.wouldBlock 5 = Latest.Value.TrySendError.channelClosed 5 ∨
      Latest.Value.TrySendError.wouldBlock 5 = Latest.Value.TrySendError.wouldBlock 5) ∧
      (Latest.Value.try_send true (⟨none, false⟩ : Latest.Value.Chan Nat) 5).2 =
        ⟨none, false⟩) ∧
    ((⟨0, 7⟩ : Latest.Map.SendError Nat Nat).key = 0 ∧
      (⟨0, 7⟩ : Latest.Map.SendError Nat Nat).val = 7 ∧
      (Latest.Map.send 0 (⟨[], false⟩ : Latest.Map.Chan Nat Nat) 0 7).2 = ⟨[], false⟩) ∧
    ((Latest.Map.TrySendError.channelClosed 0 7 = Latest.Map.TrySendError.channelClosed 0 7 ∨
      Latest.Map.TrySendError.channelClosed 0 7 = Latest.Map.TrySendError.wouldBlock 0 7) ∧
      (Latest.Map.try_send 0 false (⟨[], false⟩ : Latest.Map.Chan Nat Nat) 0 7).2 =
        ⟨[], false⟩) :=
  ⟨(Latest.error_carry_back (T := Nat) (K := Nat) (V := Nat)).1 ⟨none, true⟩ 5 ⟨5⟩ rfl,
    (Latest.error_carry_back (T := Nat) (K := Nat) (V := Nat)).2.1 true ⟨none, false⟩ 5
      (Latest.Value.TrySendError.wouldBlock 5) rfl,
    (Latest.error_carry_back (T := Nat) (K := Nat) (V := Nat)).2.2.1 0 ⟨[], false⟩ 0 7
      ⟨0, 7⟩ rfl,
    (Latest.error_carry_back (T := Nat) (K := Nat) (V := Nat)).2.2.2 0 false ⟨[], false⟩
      0 7 (Latest.Map.TrySendError.channelClosed 0 7) rfl⟩

/-- C7: for both variants, a cloned `Sender` refers to the same storage cell
as the original, the clone operation modifies no cell and cannot fail, and a
send through the clone has the same result and the same effect on the cells
as a send through the original. -/
theorem Latest.clone_shares_cell {T K V : Type} [DecidableEq K]
    (w : Latest.Value.CellStore T) (s : Latest.SenderHandle) (t : T)
    (wm : Latest.Map.CellStore K V) (sm : Latest.SenderHandle) (strong : Nat)
    (k : K) (v : V) :
    ((Latest.Value.cloneSender w s).2.ref = s.ref) ∧
    ((Latest.Value.cloneSender w s).1.cells = w.cells) ∧
    ((Latest.Value.sendThrough (Latest.Value.cloneSender w s).1
        (Latest.Value.cloneSender w s).2 t).1 =
      (Latest.Value.sendThrough w s t).1) ∧
    ((Latest.Value.sendThrough (Latest.Value.cloneSender w s).1
        (Latest.Value.cloneSender w s).2 t).2.cells =
      (Latest.Value.sendThrough w s t).2.cells) ∧
    ((Latest.Map.cloneSender wm sm).2.ref = sm.ref) ∧
    ((Latest.Map.cloneSender wm sm).1.cells = wm.cells) ∧
    ((Latest.Map.sendThrough strong (Latest.Map.cloneSender wm sm).1
        (Latest.Map.cloneSender wm sm).2 k v).1 =
      (Latest.Map.sendThrough strong wm sm k v).1) ∧
    ((Latest.Map.sendThrough strong (Latest.Map.cloneSender wm sm).1
        (Latest.Map.cloneSender wm sm).2 k v).2.cells =
      (Latest.Map.sendThrough strong wm sm k v).2.cells) :=
  ⟨rfl, rfl, rfl, rfl, rfl, rfl, rfl, rfl⟩

/-- C8: called while the lock is held by another thread, `try_send` and
`try_recv` of both variants return WouldBlock at once — carrying back the
value (and key) for sends — and leave the cell unchanged, instead of
waiting. -/
theorem Latest.try_would_block {T K V : Type} [DecidableEq K]
    (ch : Latest.Value.Chan T) (t : T) (chm : Latest.Map.Chan K V)
    (k : K) (v : V) (strong : Nat) (hs : 0 < strong) :
    Latest.Value.try_send true ch t =
      (Except.error (Latest.Value.TrySendError.wouldBlock t), ch) ∧
    Latest.Value.try_recv true ch =
      (Except.error Latest.Value.TryRecvError.wouldBlock, ch) ∧
    Latest.Map.try_send strong true chm k v =
      (Except.error (Latest.Map.TrySendError.wouldBlock k v), chm) ∧
    Latest.Map.try_recv strong true chm =
      (Except.error Latest.Map.TryRecvError.wouldBlock, chm) := by
  have hs0 : strong ≠ 0 := Nat.pos_iff_ne_zero.mp hs
  refine ⟨rfl, rfl, ?_, ?_⟩
  · simp [Latest.Map.try_send, hs0]
  · simp [Latest.Map.try_recv, hs0]

/-- Witness for C8 at concrete contended channels with strong count 1. -/
theorem Latest.try_would_block_witness :
    Latest.Value.try_send true (⟨none, false⟩ : Latest.Value.Chan Nat) 5 =
      (Except.error (Latest.Value.TrySendError.wouldBlock 5), ⟨none, false⟩) ∧
    Latest.Value.try_recv true (⟨none, false⟩ : Latest.Value.Chan Nat) =
      (Except.error Latest.Value.TryRecvError.wouldBlock, ⟨none, false⟩) ∧
    Latest.Map.try_send 1 true (⟨[], false⟩ : Latest.Map.Chan Nat Nat) 0 7 =
      (Except.error (Latest.Map.TrySendError.wouldBlock 0 7), ⟨[], false⟩) ∧
    Latest.Map.try_recv 1 true (⟨[], false⟩ : Latest.Map.Chan Nat Nat) =
      (Except.error Latest.Map.TryRecvError.wouldBlock, ⟨[], false⟩) :=
  Latest.try_would_block ⟨none, false⟩ 5 ⟨[], false⟩ 0 7 1 (by decide)

/-- C9: keyed key-set monotonicity — sends never remove a key, receives
preserve the key set exactly and drain by writing `None` into every entry
while keeping the keys, and when no key has a pending update the receives
return `Ok` of the empty batch. -/
theorem Latest.keyed_key_monotonic {K V : Type} [DecidableEq K]
    (ch : Latest.Map.Chan K V) (k : K) (v : V) (strong : Nat) (contended : Bool)
    (hs : 0 < strong) (hp : ch.poisoned = false) :
    (∀ k0, k0 ∈ ch.map.map Prod.fst →
      k0 ∈ (Latest.Map.send strong ch k v).2.map.map Prod.fst) ∧
    (∀ k0, k0 ∈ ch.map.map Prod.fst →
      k0 ∈ (Latest.Map.try_send strong contended ch k v).2.map.map Prod.fst) ∧
    ((Latest.Map.recv strong ch).2.map.map Prod.fst = ch.map.map Prod.fst) ∧
    ((Latest.Map.try_recv strong contended ch).2.map.map Prod.fst =
      ch.map.map Prod.fst) ∧
    ((Latest.Map.recv strong ch).2.map = ch.map.map (fun p => (p.1, none))) ∧
    ((∀ p ∈ ch.map, p.2 = none) →
      (Latest.Map.recv strong ch).1 = Except.ok ([] : List (K × V)) ∧
      (Latest.Map.try_recv strong false ch).1 = Except.ok ([] : List (K × V))) := by
  have hs0 : strong ≠ 0 := Nat.pos_iff_ne_zero.mp hs
  have hkeys : ((ch.map.map fun p => ((p.1 : K), (none : Option V))).map Prod.fst) =
      ch.map.map Prod.fst := by
    rw [List.map_map]
    rfl
  refine ⟨?_, ?_, ?_, ?_, ?_, ?_⟩
  · intro k0 hk0
    rw [Latest.Map.send_ok strong ch k v hs0 hp]
    exact Latest.Map.mem_keys_insertKV ch.map k k0 (some v) hk0
  · intro k0 hk0
    cases contended with
    | true =>
      have : Latest.Map.try_send strong true ch k v =
          (Except.error (Latest.Map.TrySendError.wouldBlock k v), ch) := by
        simp [Latest.Map.try_send, hs0]
      rw [this]
      exact hk0
    | false =>
      have : Latest.Map.try_send strong false ch k v =
          (Except.ok (), ⟨Latest.Map.insertKV ch.map k (some v), false⟩) := by
        cases ch
        simp_all [Latest.Map.try_send]
      rw [this]
      exact Latest.Map.mem_keys_insertKV ch.map k k0 (some v) hk0
  · rw [Latest.Map.recv_ok strong ch hs0 hp]
    rw [show (⟨(Latest.Map.drain ch.map).2, false⟩ : Latest.Map.Chan K V).map =
      (Latest.Map.drain ch.map).2 from rfl]
    rw [Latest.Map.keys_drain_snd, hkeys]
  · cases contended with
    | true =>
      have : Latest.Map.try_recv strong true ch =
          (Except.error Latest.Map.TryRecvError.wouldBlock, ch) := by
        simp [Latest.Map.try_recv, hs0]
      rw [this]
    | false =>
      rw [Latest.Map.try_recv_ok strong ch hs0 hp]
      rw [show (⟨(Latest.Map.drain ch.map).2, false⟩ : Latest.Map.Chan K V).map =
        (Latest.Map.drain ch.map).2 from rfl]
      rw [Latest.Map.keys_drain_snd, hkeys]
  · rw [Latest.Map.recv_ok strong ch hs0 hp]
    exact Latest.Map.keys_drain_snd ch.map
  · intro hall
    have hempty : (Latest.Map.drain ch.map).1 = [] := Latest.Map.drain_all_none _ hall
    constructor
    · rw [Latest.Map.recv_ok strong ch hs0 hp, hempty]
    · rw [Latest.Map.try_recv_ok strong ch hs0 hp, hempty]

/-- Witness for C9 at the keyed channel `⟨[(0, none)], false⟩` with send key 1,
strong count 1, uncontended. -/
theorem Latest.keyed_key_monotonic_witness :
    (∀ k0, k0 ∈ ([(0, (none : Option Nat))] : List (Nat × Option Nat)).map Prod.fst →
      k0 ∈ (Latest.Map.send 1 (⟨[(0, none)], false⟩ : Latest.Map.Chan Nat Nat) 1 7).2.map.map Prod.fst) ∧
    (∀ k0, k0 ∈ ([(0, (none : Option Nat))] : List (Nat × Option Nat)).map Prod.fst →
      k0 ∈ (Latest.Map.try_send 1 false (⟨[(0, none)], false⟩ : Latest.Map.Chan Nat Nat) 1 7).2.map.map Prod.fst) ∧
    ((Latest.Map.recv 1 (⟨[(0, none)], false⟩ : Latest.Map.Chan Nat Nat)).2.map.map Prod.fst =
      ([(0, (none : Option Nat))] : List (Nat × Option Nat)).map Prod.fst) ∧
    ((Latest.Map.try_recv 1 false (⟨[(0, none)], false⟩ : Latest.Map.Chan Nat Nat)).2.map.map Prod.fst =
      ([(0, (none : Option Nat))] : List (Nat × Option Nat)).map Prod.fst) ∧
    ((Latest.Map.recv 1 (⟨[(0, none)], false⟩ : Latest.Map.Chan Nat Nat)).2.map =
      ([(0, (none : Option Nat))] : List (Nat × Option Nat)).map (fun p => (p.1, none))) ∧
    ((∀ p ∈ ([(0, (none : Option Nat))] : List (Nat × Option Nat)), p.2 = none) →
      (Latest.Map.recv 1 (⟨[(0, none)], false⟩ : Latest.Map.Chan Nat Nat)).1 =
        Except.ok ([] : List (Nat × Nat)) ∧
      (Latest.Map.try_recv 1 false (⟨[(0, none)], false⟩ : Latest.Map.Chan Nat Nat)).1 =
        Except.ok ([] : List (Nat × Nat))) :=
  Latest.keyed_key_monotonic ⟨[(0, none)], false⟩ 1 7 1 false (by decide) rfl

/-- C10: the `downgrade().upgrade()` check of map.rs is applied to an `Arc`
the calling handle itself keeps strongly referenced, so the observed strong
count is positive, the upgrade succeeds, and each operation behaves exactly
as its body without the check: the ChannelClosed/SendError branch guarded by
the upgrade is unreachable and closure is never detected through it. -/
theorem Latest.upgrade_check_unreachable {K V : Type} [DecidableEq K]
    (ch : Latest.Map.Chan K V) (k : K) (v : V) (strong : Nat) (contended : Bool)
    (hs : 0 < strong) :
    Latest.Map.send strong ch k v =
      (if ch.poisoned then (Except.error ⟨k, v⟩, ch)
        else (Except.ok (), { ch with map := Latest.Map.insertKV ch.map k (some v) })) ∧
    Latest.Map.try_send strong contended ch k v =
      (if contended then
          (Except.error (Latest.Map.TrySendError.wouldBlock k v), ch)
        else if ch.poisoned then
          (Except.error (Latest.Map.TrySendError.channelClosed k v), ch)
        else (Except.ok (), { ch with map := Latest.Map.insertKV ch.map k (some v) })) ∧
    Latest.Map.recv strong ch =
      (if ch.poisoned then (Except.error ⟨⟩, ch)
        else (Except.ok (Latest.Map.drain ch.map).1,
          { ch with map := (Latest.Map.drain ch.map).2 })) ∧
    Latest.Map.try_recv strong contended ch =
      (if contended then (Except.error Latest.Map.TryRecvError.wouldBlock, ch)
        else if ch.poisoned then (Except.error Latest.Map.TryRecvError.channelClosed, ch)
        else (Except.ok (Latest.Map.drain ch.map).1,
          { ch with map := (Latest.Map.drain ch.map).2 })) := by
  have hs0 : strong ≠ 0 := Nat.pos_iff_ne_zero.mp hs
  refine ⟨?_, ?_, ?_, ?_⟩
  · simp [Latest.Map.send, hs0]
  · simp [Latest.Map.try_send, hs0]
  · simp [Latest.Map.recv, hs0]
  · simp [Latest.Map.try_recv, hs0]

/-- Witness for C10 at a concrete keyed channel with strong count 1. -/
theorem Latest.upgrade_check_unreachable_witness :
    Latest.Map.send 1 (⟨[], false⟩ : Latest.Map.Chan Nat Nat) 0 7 =
      (if (⟨[], false⟩ : Latest.Map.Chan Nat Nat).poisoned then
          (Except.error ⟨0, 7⟩, (⟨[], false⟩ : Latest.Map.Chan Nat Nat))
        else (Except.ok (),
          { (⟨[], false⟩ : Latest.Map.Chan Nat Nat) with
              map := Latest.Map.insertKV [] 0 (some 7) })) ∧
    Latest.Map.try_send 1 false (⟨[], false⟩ : Latest.Map.Chan Nat Nat) 0 7 =
      (if false then
          (Except.error (Latest.Map.TrySendError.wouldBlock 0 7),
            (⟨[], false⟩ : Latest.Map.Chan Nat Nat))
        else if (⟨[], false⟩ : Latest.Map.Chan Nat Nat).poisoned then
          (Except.error (Latest.Map.TrySendError.channelClosed 0 7),
            (⟨[], false⟩ : Latest.Map.Chan Nat Nat))
        else (Except.ok (),
          { (⟨[], false⟩ : Latest.Map.Chan Nat Nat) with
              map := Latest.Map.insertKV [] 0 (some 7) })) ∧
    Latest.Map.recv 1 (⟨[], false⟩ : Latest.Map.Chan Nat Nat) =
      (if (⟨[], false⟩ : Latest.Map.Chan Nat Nat).poisoned then
          (Except.error ⟨⟩, (⟨[], false⟩ : Latest.Map.Chan Nat Nat))
        else (Except.ok (Latest.Map.drain ([] : List (Nat × Option Nat))).1,
          { (⟨[], false⟩ : Latest.Map.Chan Nat Nat) with
              map := (Latest.Map.drain ([] : List (Nat × Option Nat))).2 })) ∧
    Latest.Map.try_recv 1 false (⟨[], false⟩ : Latest.Map.Chan Nat Nat) =
      (if false then
          (Except.error Latest.Map.TryRecvError.wouldBlock,
            (⟨[], false⟩ : Latest.Map.Chan Nat Nat))
        else if (⟨[], false⟩ : Latest.Map.Chan Nat Nat).poisoned then
          (Except.error Latest.Map.TryRecvError.channelClosed,
            (⟨[], false⟩ : Latest.Map.Chan Nat Nat))
        else (Except.ok (Latest.Map.drain ([] : List (Nat × Option Nat))).1,
          { (⟨[], false⟩ : Latest.Map.Chan Nat Nat) with
              map := (Latest.Map.drain ([] : List (Nat × Option Nat))).2 })) :=
  Latest.upgrade_check_unreachable ⟨[], false⟩ 0 7 1 false (by decide)
